import Mathlib

/-!
Verification of the EC-FOAI portfolio construction pipeline.

This file gives a shallow embedding, in Lean 4, of the pipeline code of the
repository (src/models/data_models.py, src/calculators/roi_calculator.py,
src/optimizers/portfolio_optimizer.py, src/generators/roadmap_generator.py)
and proves, or refutes, the stated properties of that code.

Modelling conventions:
- Python floats are modelled as rationals (exact arithmetic); the one place
  where the code computes an inherently irrational quantity, the monthly
  discount factor used by NPV, is modelled over the reals.
- The Python float "inf" sentinel for the payback period is modelled with
  Option: none stands for the infinite sentinel.
- Python round(x, n) is modelled by scaling and Mathlib round (nearest
  integer); Python uses round-half-to-even at exact decimal ties, a case no
  verified statement touches, so the two agree on everything proved here.
- Human-readable rationale strings (which embed formatted numbers) are
  modelled by small inductive types carrying the same decision information.
- Python dates are modelled as integer day numbers; timedelta(days = n) is
  integer addition, exactly as in the source.
- EffortLevel, ImpactLevel and RiskLevel are str-valued enums in the source;
  dictionary keys built from them compare by their string values, so the
  quadrant table is keyed by the string values here.
-/

namespace ECFOAI

/-- Implementation effort level, from src/models/data_models.py (EffortLevel). -/
inductive EffortLevel where
  | LOW
  | MEDIUM
  | HIGH
deriving DecidableEq, Repr

/-- The string value of the str-enum member EffortLevel. -/
def EffortLevel.val : EffortLevel → String
  | .LOW => "Low"
  | .MEDIUM => "Medium"
  | .HIGH => "High"

/-- Business impact level, from src/models/data_models.py (ImpactLevel). -/
inductive ImpactLevel where
  | LOW
  | MEDIUM
  | HIGH
deriving DecidableEq, Repr

/-- The string value of the str-enum member ImpactLevel. -/
def ImpactLevel.val : ImpactLevel → String
  | .LOW => "Low"
  | .MEDIUM => "Medium"
  | .HIGH => "High"

/-- Risk level, from src/models/data_models.py (RiskLevel). -/
inductive RiskLevel where
  | LOW
  | MEDIUM
  | HIGH
deriving DecidableEq, Repr

/-- Time horizon, from src/models/data_models.py (TimeHorizon). -/
inductive TimeHorizon where
  | Q1
  | YEAR_1
  | YEAR_3
deriving DecidableEq, Repr

/-- The AIUseCase record of src/models/data_models.py.  Monetary amounts are
rationals, month counts are naturals (Pydantic validates them ge 1). -/
structure AIUseCase where
  id : String
  name : String
  problem_statement : String
  kpis : List String
  initial_cost : ℚ
  annual_cost : ℚ
  annual_benefit : ℚ
  implementation_months : ℕ
  benefit_start_month : ℕ
  effort_level : EffortLevel
  impact_level : ImpactLevel
  risk_level : RiskLevel
  dependencies : List String
  skills_required : List String
  technology_required : List String
  soft_benefits : List String
  risk_factors : List String
deriving DecidableEq, Repr

/-- The validation invariants the Pydantic model imposes on AIUseCase
(Field ge 0 on the monetary amounts, ge 1 on the month fields). -/
def AIUseCase.Valid (uc : AIUseCase) : Prop :=
  0 ≤ uc.initial_cost ∧ 0 ≤ uc.annual_cost ∧ 0 ≤ uc.annual_benefit ∧
    1 ≤ uc.implementation_months ∧ 1 ≤ uc.benefit_start_month

instance (uc : AIUseCase) : Decidable uc.Valid := by
  unfold AIUseCase.Valid
  infer_instance

/-- The ROIMetrics record of src/models/data_models.py.  payback_months is
Option: none models the float inf sentinel returned by the calculator. -/
structure ROIMetrics where
  use_case_id : String
  basic_roi_percent : ℚ
  npv : ℚ
  payback_months : Option ℚ
  risk_adjusted_value : ℚ
  three_year_benefit : ℚ
  three_year_cost : ℚ
  annual_net_benefit : ℚ
deriving DecidableEq, Repr

/-- Abstraction of the selection_rationale strings written by
PortfolioOptimizer._apply_selection; each constructor corresponds to one of
the formatted messages of the source (the formatted numbers carried by the
messages are recoverable from the item and the configuration). -/
inductive SelectionRationale where
  | empty
  | belowRoiThreshold
  | exceedsBudget
  | exceedsMaxProjects
  | selectedRank (rank : ℕ)
deriving DecidableEq, Repr

/-- The PortfolioItem record of src/models/data_models.py. -/
structure PortfolioItem where
  use_case : AIUseCase
  roi_metrics : ROIMetrics
  priority_score : ℚ
  quadrant : String
  selected : Bool
  selection_rationale : SelectionRationale
deriving DecidableEq, Repr

/-! ## Quadrant table (src/optimizers/portfolio_optimizer.py, QUADRANTS)

The table is a Python dict keyed by pairs of str-enum members; str-enum
members hash and compare as their string values, so the embedded table is
keyed by pairs of strings. -/

/-- PortfolioOptimizer.QUADRANTS: (impact, effort) to (label, rank, emoji). -/
def QUADRANTS : List ((String × String) × (String × ℕ × String)) :=
  [ (("High", "Low"), ("Quick Wins", 1, "🚀"))
  , (("High", "Medium"), ("Strategic Projects", 2, "⭐"))
  , (("High", "High"), ("Major Projects", 3, "🏗️"))
  , (("Medium", "Low"), ("Easy Wins", 2, "✅"))
  , (("Medium", "Medium"), ("Balanced Projects", 3, "⚖️"))
  , (("Medium", "High"), ("Resource Heavy", 4, "⚠️"))
  , (("Low", "Low"), ("Fill-ins", 3, "📝"))
  , (("Low", "Medium"), ("Low Priority", 4, "📉"))
  , (("Low", "High"), ("Avoid", 5, "🚫"))
  ]

/-- The dict lookup QUADRANTS.get((impact, effort)) before the default is
applied: some on a key present in the table, none otherwise. -/
def quadrantLookup (impact effort : String) : Option (String × ℕ × String) :=
  QUADRANTS.lookup (impact, effort)

/-- PortfolioOptimizer._get_quadrant: dict .get with the default
("Unknown", 3, "❓") for keys missing from the table. -/
def getQuadrant (impact effort : String) : String × ℕ × String :=
  (quadrantLookup impact effort).getD ("Unknown", 3, "❓")

/-! ## Priority scoring (PortfolioOptimizer._calculate_priority_score) -/

/-- PortfolioOptimizer._calculate_priority_score: composite 0-100 score.
The WEIGHTS dict of the source (roi 0.30, npv 0.25, risk_adjusted 0.20,
payback 0.15, strategic 0.10) is inlined into the weighted sum. -/
def calculatePriorityScore (uc : AIUseCase) (m : ROIMetrics) : ℚ :=
  let roiScore : ℚ := min m.basic_roi_percent 500 / 500 * 100
  let npvScore : ℚ := min (max m.npv 0) 5000000 / 5000000 * 100
  let riskAdjScore : ℚ := min (max m.risk_adjusted_value 0) 5000000 / 5000000 * 100
  let paybackScore : ℚ :=
    match m.payback_months with
    | none => 0
    | some p => max 0 ((36 - p) / 36) * 100
  let quadrantPriority : ℕ := (getQuadrant uc.impact_level.val uc.effort_level.val).2.1
  let strategicScore : ℚ := (6 - (quadrantPriority : ℚ)) / 5 * 100
  round (
    (roiScore * (30 / 100) + npvScore * (25 / 100) + riskAdjScore * (20 / 100)
      + paybackScore * (15 / 100) + strategicScore * (10 / 100)) * 100) / 100

/-! ## Constrained selection (PortfolioOptimizer._apply_selection) -/

/-- Constructor arguments of PortfolioOptimizer.__init__. -/
structure OptimizerConfig where
  budget_constraint : Option ℚ
  max_projects : Option ℕ
  min_roi_threshold : ℚ
deriving DecidableEq, Repr

/-- The three-year commitment used by the budget check:
initial_cost + annual_cost * 3. -/
def projectCost (item : PortfolioItem) : ℚ :=
  item.use_case.initial_cost + item.use_case.annual_cost * 3

/-- The Python condition
"self.budget_constraint and (total_cost + project_cost > self.budget_constraint)":
None and 0.0 are falsy, so the budget check is skipped for both. -/
def budgetRejects (budget : Option ℚ) (newTotal : ℚ) : Bool :=
  match budget with
  | none => false
  | some b => decide (b ≠ 0) && decide (b < newTotal)

/-- The Python condition
"self.max_projects and selected_count >= self.max_projects":
None and 0 are falsy, so the count check is skipped for both. -/
def maxRejects (maxProjects : Option ℕ) (selectedCount : ℕ) : Bool :=
  match maxProjects with
  | none => false
  | some m => decide (m ≠ 0) && decide (m ≤ selectedCount)

/-- PortfolioOptimizer._apply_selection, as a recursion over the item list
carrying the running (selected_count, total_cost) state; returns the
annotated items together with the final state.  Rejection branches write only
selection_rationale (the source leaves item.selected untouched there). -/
def applySelectionAux (cfg : OptimizerConfig) :
    List PortfolioItem → ℕ → ℚ → List PortfolioItem × ℕ × ℚ
  | [], count, total => ([], count, total)
  | item :: rest, count, total =>
    if item.roi_metrics.basic_roi_percent < cfg.min_roi_threshold then
      let r := applySelectionAux cfg rest count total
      ({ item with selection_rationale := .belowRoiThreshold } :: r.1, r.2)
    else if budgetRejects cfg.budget_constraint (total + projectCost item) then
      let r := applySelectionAux cfg rest count total
      ({ item with selection_rationale := .exceedsBudget } :: r.1, r.2)
    else if maxRejects cfg.max_projects count then
      let r := applySelectionAux cfg rest count total
      ({ item with selection_rationale := .exceedsMaxProjects } :: r.1, r.2)
    else
      let r := applySelectionAux cfg rest (count + 1) (total + projectCost item)
      ({ item with selected := true,
                   selection_rationale := .selectedRank (count + 1) } :: r.1, r.2)

/-- PortfolioOptimizer._apply_selection: the annotated item list, starting
from selected_count = 0 and total_cost = 0.0. -/
def applySelection (cfg : OptimizerConfig) (items : List PortfolioItem) :
    List PortfolioItem :=
  (applySelectionAux cfg items 0 0).1

/-- Total project_cost of the items marked selected. -/
def sumSelectedCost (items : List PortfolioItem) : ℚ :=
  (items.map fun i => if i.selected then projectCost i else 0).sum

/-- Number of items marked selected. -/
def countSelected (items : List PortfolioItem) : ℕ :=
  (items.filter fun i => i.selected).length

/-! ## Portfolio assembly (PortfolioOptimizer.optimize) -/

/-- The dict comprehension building metrics_map followed by .get(uc.id):
later entries of the metrics list overwrite earlier ones on duplicate ids,
so the lookup scans the reversed list. -/
def metricsLookup (metrics : List ROIMetrics) (id : String) : Option ROIMetrics :=
  metrics.reverse.find? fun m => m.use_case_id == id

/-- The PortfolioItem constructed inside PortfolioOptimizer.optimize. -/
def mkPortfolioItem (uc : AIUseCase) (m : ROIMetrics) : PortfolioItem :=
  { use_case := uc
  , roi_metrics := m
  , priority_score := calculatePriorityScore uc m
  , quadrant := (getQuadrant uc.impact_level.val uc.effort_level.val).1
  , selected := false
  , selection_rationale := .empty }

/-- portfolio_items.sort(key = score, reverse = True): Python list.sort is
stable, so the descending sort keeps input order on ties; mergeSort with the
"score of the left is not below the score of the right" order matches that. -/
def sortByScoreDesc (items : List PortfolioItem) : List PortfolioItem :=
  items.mergeSort fun a b => decide (b.priority_score ≤ a.priority_score)

/-- PortfolioOptimizer.optimize: build scored items (skipping use cases with
no metrics entry), sort by score descending, apply constrained selection. -/
def optimize (cfg : OptimizerConfig) (use_cases : List AIUseCase)
    (metrics : List ROIMetrics) : List PortfolioItem :=
  applySelection cfg (sortByScoreDesc
    (use_cases.filterMap fun uc => (metricsLookup metrics uc.id).map (mkPortfolioItem uc)))

/-! ## Financial metrics engine (src/calculators/roi_calculator.py) -/

/-- Python round(x, 1) on the values reached in this development: scale by
10, round to the nearest integer, scale back. -/
def round1 (x : ℚ) : ℚ :=
  (round (x * 10) : ℤ) / 10

/-- Python round(x, 2) on the values reached in this development: scale by
100, round to the nearest integer, scale back. -/
def round2 (x : ℚ) : ℚ :=
  (round (x * 100) : ℤ) / 100

/-- The month benefits begin:
implementation_months + benefit_start_month - 1 (Python int arithmetic;
both fields are validated ge 1, so the subtraction cannot underflow). -/
def benefitStart (uc : AIUseCase) : ℕ :=
  uc.implementation_months + uc.benefit_start_month - 1

/-- three_year_cost of ROICalculator.calculate_metrics:
initial_cost + annual_cost * ANALYSIS_YEARS with ANALYSIS_YEARS = 3. -/
def threeYearCost (uc : AIUseCase) : ℚ :=
  uc.initial_cost + uc.annual_cost * 3

/-- ROICalculator._calculate_total_benefit:
(annual_benefit / 12) * max(0, 36 - benefit_start). -/
def calculateTotalBenefit (uc : AIUseCase) : ℚ :=
  uc.annual_benefit / 12 * (max 0 (36 - (benefitStart uc : ℤ)) : ℤ)

/-- ROICalculator._calculate_basic_roi:
(benefit - cost) / cost * 100, with 0 for a zero cost. -/
def calculateBasicRoi (totalBenefit totalCost : ℚ) : ℚ :=
  if totalCost = 0 then 0 else (totalBenefit - totalCost) / totalCost * 100

/-- ROICalculator._calculate_payback_period; none models float inf.  The
source re-checks monthly_net_benefit <= 0 after the annual comparison; the
branch is kept even though it is unreachable over exact arithmetic. -/
def calculatePaybackPeriod (uc : AIUseCase) : Option ℚ :=
  if uc.annual_benefit ≤ uc.annual_cost then
    none
  else
    let monthly_net_benefit := (uc.annual_benefit - uc.annual_cost) / 12
    if monthly_net_benefit ≤ 0 then
      none
    else
      some (round1 ((benefitStart uc : ℚ) + uc.initial_cost / monthly_net_benefit))

/-- ROICalculator.RISK_MULTIPLIERS.get(risk_level, 0.80): the dict covers the
closed enum, so the 0.80 default is unreachable. -/
def riskMultiplier : RiskLevel → ℚ
  | .LOW => 95 / 100
  | .MEDIUM => 80 / 100
  | .HIGH => 60 / 100

/-- ROICalculator.calculate_metrics assembling the ROIMetrics record.  The
npv field is produced by the real-valued _calculate_npv (see npvR below); its
value is irrational in general, so it is taken here as the parameter npvVal
and the fields derived from it are expressed through that parameter. -/
def calculateMetricsCore (npvVal : ℚ) (uc : AIUseCase) : ROIMetrics :=
  { use_case_id := uc.id
  , basic_roi_percent := calculateBasicRoi (calculateTotalBenefit uc) (threeYearCost uc)
  , npv := npvVal
  , payback_months := calculatePaybackPeriod uc
  , risk_adjusted_value := round2 (npvVal * riskMultiplier uc.risk_level)
  , three_year_benefit := calculateTotalBenefit uc
  , three_year_cost := threeYearCost uc
  , annual_net_benefit := uc.annual_benefit - uc.annual_cost }

/-- ROICalculator._generate_cash_flows, as the flow of a single month:
initial cost charged at month 0, annual_cost / 12 every month, and
annual_benefit / 12 from benefit_start on.  The source builds the list of
these 36 values. -/
def cashFlow (uc : AIUseCase) (month : ℕ) : ℚ :=
  (if month = 0 then -uc.initial_cost else 0) - uc.annual_cost / 12
    + (if benefitStart uc ≤ month then uc.annual_benefit / 12 else 0)

/-- Python round(x, 2) over the reals, for the NPV rounding. -/
noncomputable def round2R (x : ℝ) : ℝ :=
  ((round (x * 100) : ℤ) : ℝ) / 100

/-- monthly_rate = (1 + DISCOUNT_RATE) ** (1 / 12) - 1 with
DISCOUNT_RATE = 0.10; irrational, hence over the reals. -/
noncomputable def monthlyRate : ℝ :=
  (1 + 10 / 100 : ℝ) ^ ((1 : ℝ) / 12) - 1

/-- ROICalculator._calculate_npv of the 36-month cash-flow series:
sum of flow(t) / (1 + monthly_rate) ^ t, rounded to 2 decimals. -/
noncomputable def npvR (uc : AIUseCase) : ℝ :=
  round2R (∑ t ∈ Finset.range 36, (cashFlow uc t : ℝ) / (1 + monthlyRate) ^ t)

/-! ## Roadmap generator (src/generators/roadmap_generator.py) -/

/-- Abstraction of the phase_rationale strings of
RoadmapGenerator._get_phase_rationale, one constructor per branch. -/
inductive PhaseRationale where
  | quickWin
  | strategicInitiative
  | transformational
deriving DecidableEq, Repr

/-- The RoadmapItem record of src/models/data_models.py; dates are integer
day numbers. -/
structure RoadmapItem where
  use_case : AIUseCase
  roi_metrics : ROIMetrics
  time_horizon : TimeHorizon
  start_date : ℤ
  end_date : ℤ
  milestones : List String
  phase_rationale : PhaseRationale
deriving DecidableEq, Repr

/-- RoadmapGenerator._determine_horizon; the slots argument is accepted and
ignored exactly as in the source. -/
def determineHorizon (item : PortfolioItem) (slots : TimeHorizon → ℕ) : TimeHorizon :=
  let _ := slots
  let uc := item.use_case
  let impl_months := uc.implementation_months
  if uc.effort_level = .LOW ∧ impl_months ≤ 3 ∧ 50 ≤ item.priority_score then
    .Q1
  else if uc.effort_level = .HIGH ∨ 12 < impl_months then
    .YEAR_3
  else if uc.effort_level = .MEDIUM then
    if 40 ≤ item.priority_score then .YEAR_1 else .YEAR_3
  else if uc.effort_level = .LOW then
    .YEAR_1
  else
    .YEAR_1

/-- RoadmapGenerator._calculate_dates: start offset by horizon and slot
number, end after implementation_months 30-day months. -/
def calculateDates (startDate : ℤ) (item : PortfolioItem) (horizon : TimeHorizon)
    (slots : TimeHorizon → ℕ) : ℤ × ℤ :=
  let impl_months : ℤ := item.use_case.implementation_months
  let slot_num : ℤ := slots horizon
  match horizon with
  | .Q1 =>
    let start := startDate + slot_num * 30
    (start, start + impl_months * 30)
  | .YEAR_1 =>
    let start := startDate + (90 + slot_num * 45)
    (start, start + impl_months * 30)
  | .YEAR_3 =>
    let start := startDate + (365 + slot_num * 90)
    (start, start + impl_months * 30)

/-- RoadmapGenerator._generate_milestones: cumulative by implementation
duration; the horizon argument is accepted and unused as in the source. -/
def generateMilestones (item : PortfolioItem) (horizon : TimeHorizon) : List String :=
  let _ := horizon
  let impl_months := item.use_case.implementation_months
  ["Project Kickoff"]
    ++ (if 2 ≤ impl_months then ["Requirements Complete"] else [])
    ++ (if 3 ≤ impl_months then ["Design & Architecture Complete"] else [])
    ++ (if 4 ≤ impl_months then ["Development Phase Complete"] else [])
    ++ (if 6 ≤ impl_months then ["Integration Testing Complete"] else [])
    ++ ["UAT & Validation", "Production Deployment", "Benefits Realization Review"]

/-- RoadmapGenerator._get_phase_rationale, abstracted to its branch. -/
def getPhaseRationale (item : PortfolioItem) (horizon : TimeHorizon) : PhaseRationale :=
  let _ := item
  match horizon with
  | .Q1 => .quickWin
  | .YEAR_1 => .strategicInitiative
  | .YEAR_3 => .transformational

/-- The loop body of RoadmapGenerator.generate_roadmap: one RoadmapItem per
portfolio item, advancing the per-horizon slot counter. -/
def roadmapAux (startDate : ℤ) (slots : TimeHorizon → ℕ) :
    List PortfolioItem → List RoadmapItem
  | [] => []
  | item :: rest =>
    let horizon := determineHorizon item slots
    let dates := calculateDates startDate item horizon slots
    { use_case := item.use_case
    , roi_metrics := item.roi_metrics
    , time_horizon := horizon
    , start_date := dates.1
    , end_date := dates.2
    , milestones := generateMilestones item horizon
    , phase_rationale := getPhaseRationale item horizon } ::
      roadmapAux startDate (fun h => if h = horizon then slots h + 1 else slots h) rest

/-- RoadmapGenerator.generate_roadmap: optionally keep only selected items,
sort by priority score descending (stable), then assign horizons and dates
with all slot counters starting at 0. -/
def generateRoadmap (startDate : ℤ) (portfolio_items : List PortfolioItem)
    (selected_only : Bool := true) : List RoadmapItem :=
  let items := if selected_only then portfolio_items.filter (fun i => i.selected)
               else portfolio_items
  let items := items.mergeSort fun a b => decide (b.priority_score ≤ a.priority_score)
  roadmapAux startDate (fun _ => 0) items

/-! ## Dependency ordering (RoadmapGenerator.get_dependencies_order)

The source uses unbounded Python recursion; the embedding carries a fuel
bound on recursion depth, with none modelling a computation that exceeds
every finite depth (the Python process raises RecursionError). -/

/-- State of the traversal: the processed name set and the output order. -/
structure DepState where
  processed : List String
  ordered : List RoadmapItem
deriving DecidableEq, Repr

mutual

/-- The inner recursive function process(item) of get_dependencies_order:
skip if the name was processed, otherwise recurse into the mapped,
unprocessed dependencies, then mark the name and append the item.  Marking
happens only after the dependency recursion, exactly as in the source. -/
def processFuel (map : List (String × RoadmapItem)) :
    ℕ → RoadmapItem → DepState → Option DepState
  | 0, _, _ => none
  | fuel + 1, item, st =>
    if item.use_case.name ∈ st.processed then
      some st
    else
      match processDeps map fuel item.use_case.dependencies st with
      | none => none
      | some st' =>
        some { processed := item.use_case.name :: st'.processed
             , ordered := st'.ordered ++ [item] }
termination_by fuel _item _st => (fuel, 0)

/-- The loop over item.use_case.dependencies inside process: a dependency
name is followed when it maps to an item and is not yet processed. -/
def processDeps (map : List (String × RoadmapItem)) :
    ℕ → List String → DepState → Option DepState
  | _, [], st => some st
  | fuel, d :: ds, st =>
    match map.lookup d with
    | none => processDeps map fuel ds st
    | some it =>
      if d ∈ st.processed then
        processDeps map fuel ds st
      else
        match processFuel map fuel it st with
        | none => none
        | some st' => processDeps map fuel ds st'
termination_by fuel ds _st => (fuel, ds.length + 1)

end

/-- The top-level loop of get_dependencies_order: process every item in list
order, starting from the empty state. -/
def processAll (map : List (String × RoadmapItem)) (fuel : ℕ) :
    List RoadmapItem → DepState → Option DepState
  | [], st => some st
  | item :: rest, st =>
    match processFuel map fuel item st with
    | none => none
    | some st' => processAll map fuel rest st'

/-- The name_to_item dict maps each use-case name to its item; later items
win on duplicate names, so lookups scan the reversed association list. -/
def nameToItem (items : List RoadmapItem) : List (String × RoadmapItem) :=
  (items.map fun i => (i.use_case.name, i)).reverse

/-- RoadmapGenerator.get_dependencies_order under a recursion-depth fuel:
some order when every process call finishes within the given depth, none
when the depth is exhausted (Python: RecursionError). -/
def getDependenciesOrderFuel (fuel : ℕ) (items : List RoadmapItem) :
    Option (List RoadmapItem) :=
  (processAll (nameToItem items) fuel items { processed := [], ordered := [] }).map
    (fun st => st.ordered)

/-! ## Concrete sample data used by witnesses and counterexamples -/

/-- The end-to-end scenario record of the specification (section 8). -/
def specScenarioRecord : AIUseCase :=
  { id := "UC001", name := "Scenario", problem_statement := "p", kpis := []
  , initial_cost := 150000, annual_cost := 30000, annual_benefit := 400000
  , implementation_months := 4, benefit_start_month := 1
  , effort_level := .LOW, impact_level := .HIGH, risk_level := .LOW
  , dependencies := [], skills_required := [], technology_required := []
  , soft_benefits := [], risk_factors := [] }

/-- A metrics record with a healthy ROI, for selection tests. -/
def sampleMetrics : ROIMetrics :=
  { use_case_id := "UC001", basic_roi_percent := 50, npv := 100000
  , payback_months := some 10, risk_adjusted_value := 95000
  , three_year_benefit := 360000, three_year_cost := 240000
  , annual_net_benefit := 370000 }

/-- An unselected scored item with project cost 240000, for selection tests. -/
def sampleItem : PortfolioItem :=
  { use_case := specScenarioRecord, roi_metrics := sampleMetrics
  , priority_score := 60, quadrant := "Quick Wins"
  , selected := false, selection_rationale := .empty }

/-- A selected quick-win item: Low effort, 2 implementation months,
priority score 60. -/
def quickWinItem : PortfolioItem :=
  { use_case := { specScenarioRecord with implementation_months := 2 }
  , roi_metrics := sampleMetrics, priority_score := 60
  , quadrant := "Quick Wins", selected := true, selection_rationale := .empty }

/-- Base record for the NPV monotonicity witness. -/
def npvBaseUC : AIUseCase :=
  { specScenarioRecord with annual_benefit := 0, annual_cost := 0 }

/-- npvBaseUC with a larger annual benefit, all else equal. -/
def npvMoreBenefitUC : AIUseCase :=
  { npvBaseUC with annual_benefit := 120000 }

/-- npvBaseUC with a larger initial cost, all else equal. -/
def npvMoreCostUC : AIUseCase :=
  { npvBaseUC with initial_cost := 200000 }

/-- Roadmap item named A depending on B: one half of a dependency cycle. -/
def depItemA : RoadmapItem :=
  { use_case := { specScenarioRecord with name := "A", dependencies := ["B"] }
  , roi_metrics := sampleMetrics, time_horizon := .Q1, start_date := 0
  , end_date := 0, milestones := [], phase_rationale := .quickWin }

/-- Roadmap item named B depending on A: the other half of the cycle. -/
def depItemB : RoadmapItem :=
  { use_case := { specScenarioRecord with name := "B", dependencies := ["A"] }
  , roi_metrics := sampleMetrics, time_horizon := .Q1, start_date := 0
  , end_date := 0, milestones := [], phase_rationale := .quickWin }

/-! ## Claim C4: the quadrant table -/

/-- Claim C4: quadrant classification is a pure function of the
(impact_level, effort_level) pair, and for each of the 9 combinations of
Low, Medium, High impact with Low, Medium, High effort the returned label
and priority rank equal the canonical table of the specification. -/
theorem quadrant_table_matches_canonical :
    getQuadrant ImpactLevel.HIGH.val EffortLevel.LOW.val = ("Quick Wins", 1, "🚀") ∧
    getQuadrant ImpactLevel.HIGH.val EffortLevel.MEDIUM.val = ("Strategic Projects", 2, "⭐") ∧
    getQuadrant ImpactLevel.HIGH.val EffortLevel.HIGH.val = ("Major Projects", 3, "🏗️") ∧
    getQuadrant ImpactLevel.MEDIUM.val EffortLevel.LOW.val = ("Easy Wins", 2, "✅") ∧
    getQuadrant ImpactLevel.MEDIUM.val EffortLevel.MEDIUM.val = ("Balanced Projects", 3, "⚖️") ∧
    getQuadrant ImpactLevel.MEDIUM.val EffortLevel.HIGH.val = ("Resource Heavy", 4, "⚠️") ∧
    getQuadrant ImpactLevel.LOW.val EffortLevel.LOW.val = ("Fill-ins", 3, "📝") ∧
    getQuadrant ImpactLevel.LOW.val EffortLevel.MEDIUM.val = ("Low Priority", 4, "📉") ∧
    getQuadrant ImpactLevel.LOW.val EffortLevel.HIGH.val = ("Avoid", 5, "🚫") := by
  decide

/-! ## Claim C5: behaviour on keys missing from the quadrant table -/

/-- Claim C5 counterexample: the key ("Bogus", "Low") is not in the quadrant
table, yet the lookup returns the default quadrant ("Unknown", 3, "❓")
instead of failing fast: the claimed fail-fast behaviour is absent. -/
theorem getQuadrant_missing_key_defaults_counterexample :
    quadrantLookup "Bogus" "Low" = none ∧
    getQuadrant "Bogus" "Low" = ("Unknown", 3, "❓") := by
  decide

/-- Claim C5, amended: for any (impact, effort) key not present in the
quadrant table, the lookup silently returns the default quadrant
("Unknown", 3, "❓") rather than raising an error. -/
theorem getQuadrant_missing_key_returns_default (impact effort : String)
    (h : quadrantLookup impact effort = none) :
    getQuadrant impact effort = ("Unknown", 3, "❓") := by
  simp [getQuadrant, h]

/-- Witness for the amended Claim C5, at the concrete missing key. -/
theorem getQuadrant_missing_key_returns_default_witness :
    getQuadrant "Bogus" "Low" = ("Unknown", 3, "❓") :=
  getQuadrant_missing_key_returns_default "Bogus" "Low" (by decide)

/-! ## Claim C3: the end-to-end financial metrics scenario -/

/-- Claim C3: for the record with initial_cost 150000, annual_cost 30000,
annual_benefit 400000, implementation_months 4, benefit_start_month 1 and
Low risk, the metrics engine yields benefit_start 4, three_year_cost 240000,
three_year_benefit (400000 / 12) * 32, basic_roi_percent matching the
closed-form ratio (about 344.44), and payback_months 8.9.  The npv field
value (the parameter v) does not affect these outputs. -/
theorem calculate_metrics_spec_scenario (v : ℚ) :
    benefitStart specScenarioRecord = 4 ∧
    (calculateMetricsCore v specScenarioRecord).three_year_cost = 240000 ∧
    (calculateMetricsCore v specScenarioRecord).three_year_benefit = 400000 / 12 * 32 ∧
    (calculateMetricsCore v specScenarioRecord).basic_roi_percent =
      (400000 / 12 * 32 - 240000) / 240000 * 100 ∧
    (calculateMetricsCore v specScenarioRecord).payback_months = some (89 / 10) := by
  refine ⟨by decide, ?_, ?_, ?_, ?_⟩
  · norm_num [calculateMetricsCore, threeYearCost, specScenarioRecord]
  · norm_num [calculateMetricsCore, calculateTotalBenefit, benefitStart, specScenarioRecord]
  · norm_num [calculateMetricsCore, calculateBasicRoi, calculateTotalBenefit, benefitStart,
      threeYearCost, specScenarioRecord]
  · norm_num [calculateMetricsCore, calculatePaybackPeriod, benefitStart, specScenarioRecord,
      round1, round_eq]

/-! ## Claim C6: the payback period formula -/

/-- Claim C6: for every valid record, payback_months is the infinite
sentinel exactly when annual_benefit is at most annual_cost; otherwise it
equals benefit_start + initial_cost / ((annual_benefit - annual_cost) / 12)
rounded to one decimal, where benefit_start is
implementation_months + benefit_start_month - 1. -/
theorem payback_infinite_iff_nonpositive_net (uc : AIUseCase) (h : uc.Valid) :
    (calculatePaybackPeriod uc = none ↔ uc.annual_benefit ≤ uc.annual_cost) ∧
    (uc.annual_cost < uc.annual_benefit →
      calculatePaybackPeriod uc =
        some (round1 ((benefitStart uc : ℚ)
          + uc.initial_cost / ((uc.annual_benefit - uc.annual_cost) / 12)))) ∧
    (benefitStart uc : ℤ) =
      (uc.implementation_months : ℤ) + (uc.benefit_start_month : ℤ) - 1 := by
  obtain ⟨-, -, -, h4, h5⟩ := h
  refine ⟨?_, ?_, ?_⟩
  · constructor
    · intro hnone
      by_contra hgt
      push_neg at hgt
      have hpos : (0 : ℚ) < (uc.annual_benefit - uc.annual_cost) / 12 := by
        have := sub_pos.mpr hgt
        positivity
      simp [calculatePaybackPeriod, not_le.mpr hgt, not_le.mpr hpos] at hnone
    · intro hle
      simp [calculatePaybackPeriod, hle]
  · intro hgt
    have hpos : (0 : ℚ) < (uc.annual_benefit - uc.annual_cost) / 12 := by
      have := sub_pos.mpr hgt
      positivity
    simp [calculatePaybackPeriod, not_le.mpr hgt, not_le.mpr hpos]
  · unfold benefitStart
    omega

/-- Witness for Claim C6, at the specification scenario record. -/
theorem payback_infinite_iff_nonpositive_net_witness :
    calculatePaybackPeriod specScenarioRecord =
      some (round1 ((benefitStart specScenarioRecord : ℚ)
        + specScenarioRecord.initial_cost
          / ((specScenarioRecord.annual_benefit - specScenarioRecord.annual_cost) / 12))) :=
  (payback_infinite_iff_nonpositive_net specScenarioRecord
    (by norm_num [AIUseCase.Valid, specScenarioRecord])).2.1
    (by norm_num [specScenarioRecord])

/-! ## Claims C1 and C2: selection constraints

Helper lemmas about the running state of applySelectionAux, shared by the
budget and the project-count invariants. -/

/-- Sum of selected project costs over a cons. -/
lemma sumSelectedCost_cons (x : PortfolioItem) (l : List PortfolioItem) :
    sumSelectedCost (x :: l) =
      (if x.selected then projectCost x else 0) + sumSelectedCost l := by
  simp [sumSelectedCost]

/-- Count of selected items over a cons. -/
lemma countSelected_cons (x : PortfolioItem) (l : List PortfolioItem) :
    countSelected (x :: l) = (if x.selected then 1 else 0) + countSelected l := by
  by_cases h : x.selected <;> simp [countSelected, List.filter, h, Nat.add_comm]

/-- Budget invariant of the selection recursion: when the configured budget
is a nonzero value b and every incoming item is unselected, the selected
cost of the output plus the incoming running total stays within b. -/
lemma applySelectionAux_budget_bound (cfg : OptimizerConfig) (b : ℚ)
    (hb : cfg.budget_constraint = some b) (hbne : b ≠ 0) :
    ∀ (items : List PortfolioItem) (count : ℕ) (total : ℚ),
      (∀ i ∈ items, i.selected = false) → total ≤ b →
      sumSelectedCost (applySelectionAux cfg items count total).1 + total ≤ b := by
  intro items
  induction items with
  | nil =>
    intro count total _ htot
    simpa [applySelectionAux, sumSelectedCost] using htot
  | cons item rest ih =>
    intro count total hall htot
    have hitem : item.selected = false := hall item (by simp)
    have hrest : ∀ i ∈ rest, i.selected = false := fun i hi => hall i (by simp [hi])
    by_cases h1 : item.roi_metrics.basic_roi_percent < cfg.min_roi_threshold
    · have := ih count total hrest htot
      simp only [applySelectionAux, if_pos h1, sumSelectedCost_cons]
      simpa [hitem] using this
    · by_cases h2 : budgetRejects cfg.budget_constraint (total + projectCost item) = true
      · have := ih count total hrest htot
        simp only [applySelectionAux, if_neg h1, if_pos h2, sumSelectedCost_cons]
        simpa [hitem] using this
      · by_cases h3 : maxRejects cfg.max_projects count = true
        · have := ih count total hrest htot
          simp only [applySelectionAux, if_neg h1, if_neg h2, if_pos h3, sumSelectedCost_cons]
          simpa [hitem] using this
        · have hle : total + projectCost item ≤ b := by
            rw [hb] at h2
            simp only [budgetRejects, Bool.and_eq_true, decide_eq_true_eq] at h2
            rcases not_and_or.mp h2 with h | h
            · exact absurd hbne (by simpa using h)
            · simpa using not_lt.mp (by simpa using h)
          have := ih (count + 1) (total + projectCost item) hrest hle
          simp only [applySelectionAux, if_neg h1, if_neg h2, if_neg h3, sumSelectedCost_cons]
          norm_num
          simp only [projectCost] at this ⊢
          linarith

/-- Count invariant of the selection recursion: when the configured cap is a
nonzero value m and every incoming item is unselected, the selected count of
the output plus the incoming running count stays within m. -/
lemma applySelectionAux_count_bound (cfg : OptimizerConfig) (m : ℕ)
    (hm : cfg.max_projects = some m) (hmne : m ≠ 0) :
    ∀ (items : List PortfolioItem) (count : ℕ) (total : ℚ),
      (∀ i ∈ items, i.selected = false) → count ≤ m →
      countSelected (applySelectionAux cfg items count total).1 + count ≤ m := by
  intro items
  induction items with
  | nil =>
    intro count total _ hcnt
    simpa [applySelectionAux, countSelected] using hcnt
  | cons item rest ih =>
    intro count total hall hcnt
    have hitem : item.selected = false := hall item (by simp)
    have hrest : ∀ i ∈ rest, i.selected = false := fun i hi => hall i (by simp [hi])
    by_cases h1 : item.roi_metrics.basic_roi_percent < cfg.min_roi_threshold
    · have := ih count total hrest hcnt
      simp only [applySelectionAux, if_pos h1, countSelected_cons]
      simpa [hitem] using this
    · by_cases h2 : budgetRejects cfg.budget_constraint (total + projectCost item) = true
      · have := ih count total hrest hcnt
        simp only [applySelectionAux, if_neg h1, if_pos h2, countSelected_cons]
        simpa [hitem] using this
      · by_cases h3 : maxRejects cfg.max_projects count = true
        · have := ih count total hrest hcnt
          simp only [applySelectionAux, if_neg h1, if_neg h2, if_pos h3, countSelected_cons]
          simpa [hitem] using this
        · have hlt : count + 1 ≤ m := by
            rw [hm] at h3
            simp only [maxRejects, Bool.and_eq_true, decide_eq_true_eq] at h3
            rcases not_and_or.mp h3 with h | h
            · exact absurd hmne (by simpa using h)
            · omega
          have := ih (count + 1) (total + projectCost item) hrest hlt
          simp only [applySelectionAux, if_neg h1, if_neg h2, if_neg h3, countSelected_cons]
          norm_num
          omega

/-- Claim C1 counterexample: with budget_limit set to 0 the Python condition
"self.budget_constraint and ..." is falsy, the budget check is skipped, and
the selected cost (240000) exceeds the configured budget 0. -/
theorem applySelection_budget_zero_counterexample :
    ¬ sumSelectedCost
        (applySelection
          { budget_constraint := some 0, max_projects := none, min_roi_threshold := 0 }
          [sampleItem]) ≤ 0 := by
  norm_num [sumSelectedCost, applySelection, applySelectionAux, budgetRejects, maxRejects,
    projectCost, sampleItem, sampleMetrics, specScenarioRecord]

/-- Claim C1, amended: for every input list of unselected scored items and
every set positive budget_limit b, the cumulative project_cost of the items
the selector marks selected never exceeds b; and an item that passes the ROI
gate but whose admission would exceed b is rejected with the budget
rationale and consumes no budget (the recursion continues with the running
totals unchanged).  With budget_limit 0 the constraint is treated as unset
(see the counterexample). -/
theorem applySelection_respects_positive_budget (cfg : OptimizerConfig)
    (items : List PortfolioItem) (b : ℚ)
    (hb : cfg.budget_constraint = some b) (hpos : 0 < b)
    (hall : ∀ i ∈ items, i.selected = false) :
    sumSelectedCost (applySelection cfg items) ≤ b ∧
    ∀ (count : ℕ) (total : ℚ) (item : PortfolioItem) (rest : List PortfolioItem),
      ¬ item.roi_metrics.basic_roi_percent < cfg.min_roi_threshold →
      b < total + projectCost item →
      applySelectionAux cfg (item :: rest) count total =
        ({ item with selection_rationale := .exceedsBudget } ::
            (applySelectionAux cfg rest count total).1,
          (applySelectionAux cfg rest count total).2) := by
  constructor
  · have := applySelectionAux_budget_bound cfg b hb hpos.ne' items 0 0 hall hpos.le
    simpa [applySelection] using this
  · intro count total item rest h1 h2
    have hrej : budgetRejects cfg.budget_constraint (total + projectCost item) = true := by
      simp [budgetRejects, hb, hpos.ne', h2]
    simp [applySelectionAux, if_neg h1, hrej]

/-- Witness for the amended Claim C1: one unselected item and budget
1000000; the theorem bounds the selected cost by the budget. -/
theorem applySelection_respects_positive_budget_witness :
    sumSelectedCost
        (applySelection
          { budget_constraint := some 1000000, max_projects := none, min_roi_threshold := 0 }
          [sampleItem]) ≤ 1000000 :=
  (applySelection_respects_positive_budget _ [sampleItem] 1000000 rfl (by norm_num)
    (by intro i hi; simp only [List.mem_singleton] at hi; subst hi; rfl)).1

/-- Claim C2 counterexample: with max_projects set to 0 the Python condition
"self.max_projects and ..." is falsy, the count check is skipped, and one
item is selected although the configured cap is 0. -/
theorem applySelection_max_projects_zero_counterexample :
    ¬ countSelected
        (applySelection
          { budget_constraint := none, max_projects := some 0, min_roi_threshold := 0 }
          [sampleItem]) ≤ 0 := by
  norm_num [countSelected, applySelection, applySelectionAux, budgetRejects, maxRejects,
    projectCost, sampleItem, sampleMetrics, specScenarioRecord, List.filter]

/-- Claim C2, amended: for every input list of unselected scored items and
every set positive max_projects m, the selector marks at most m items as
selected; and once the selected count has reached m, every further item that
passes the ROI and budget gates is rejected with the max-project-count
rationale and consumes no slot.  With max_projects 0 the constraint is
treated as unset (see the counterexample). -/
theorem applySelection_respects_positive_max_projects (cfg : OptimizerConfig)
    (items : List PortfolioItem) (m : ℕ)
    (hm : cfg.max_projects = some m) (hpos : 0 < m)
    (hall : ∀ i ∈ items, i.selected = false) :
    countSelected (applySelection cfg items) ≤ m ∧
    ∀ (count : ℕ) (total : ℚ) (item : PortfolioItem) (rest : List PortfolioItem),
      ¬ item.roi_metrics.basic_roi_percent < cfg.min_roi_threshold →
      budgetRejects cfg.budget_constraint (total + projectCost item) = false →
      m ≤ count →
      applySelectionAux cfg (item :: rest) count total =
        ({ item with selection_rationale := .exceedsMaxProjects } ::
            (applySelectionAux cfg rest count total).1,
          (applySelectionAux cfg rest count total).2) := by
  constructor
  · have := applySelectionAux_count_bound cfg m hm hpos.ne' items 0 0 hall hpos.le
    simpa [applySelection] using this
  · intro count total item rest h1 h2 h3
    have hrej : maxRejects cfg.max_projects count = true := by
      simp [maxRejects, hm, hpos.ne', h3]
    simp [applySelectionAux, if_neg h1, h2, hrej]

/-- Witness for the amended Claim C2: one unselected item and cap 5; the
theorem bounds the selected count by the cap. -/
theorem applySelection_respects_positive_max_projects_witness :
    countSelected
        (applySelection
          { budget_constraint := none, max_projects := some 5, min_roi_threshold := 0 }
          [sampleItem]) ≤ 5 :=
  (applySelection_respects_positive_max_projects _ [sampleItem] 5 rfl (by norm_num)
    (by intro i hi; simp only [List.mem_singleton] at hi; subst hi; rfl)).1

/-! ## Claim C8: quick-win scheduling -/

/-- Claim C8: a selected item with Low effort, 2 implementation months and
priority score 60, first in its horizon (slot counter 0 for Q1), is placed
in the Q1 horizon, starts at the pipeline start date, ends 60 days later,
and carries exactly the five milestones Project Kickoff, Requirements
Complete, UAT and Validation, Production Deployment, Benefits Realization
Review (the Design, Development and Integration milestones need at least
3, 4 and 6 months). -/
theorem quick_win_q1_schedule (startDate : ℤ) (item : PortfolioItem)
    (slots : TimeHorizon → ℕ)
    (_hsel : item.selected = true)
    (heff : item.use_case.effort_level = .LOW)
    (himpl : item.use_case.implementation_months = 2)
    (hscore : item.priority_score = 60)
    (hslot : slots .Q1 = 0) :
    determineHorizon item slots = .Q1 ∧
    calculateDates startDate item .Q1 slots = (startDate, startDate + 60) ∧
    generateMilestones item .Q1 =
      ["Project Kickoff", "Requirements Complete", "UAT & Validation",
        "Production Deployment", "Benefits Realization Review"] := by
  refine ⟨?_, ?_, ?_⟩
  · simp [determineHorizon, heff, himpl, hscore]
    norm_num
  · simp [calculateDates, himpl, hslot]
  · simp [generateMilestones, himpl]

/-- Witness for Claim C8, at a concrete quick-win item and zeroed slots. -/
theorem quick_win_q1_schedule_witness :
    determineHorizon quickWinItem (fun _ => 0) = .Q1 ∧
    calculateDates 0 quickWinItem .Q1 (fun _ => 0) = (0, 0 + 60) ∧
    generateMilestones quickWinItem .Q1 =
      ["Project Kickoff", "Requirements Complete", "UAT & Validation",
        "Production Deployment", "Benefits Realization Review"] :=
  quick_win_q1_schedule 0 quickWinItem (fun _ => 0) rfl rfl rfl rfl rfl

/-! ## Claim C9: pipeline stages never alter the input records -/

/-- The selection pass rewrites only the selected flag and the rationale:
the underlying use-case records come through unchanged, in order. -/
lemma applySelectionAux_map_use_case (cfg : OptimizerConfig) :
    ∀ (items : List PortfolioItem) (count : ℕ) (total : ℚ),
      ((applySelectionAux cfg items count total).1).map PortfolioItem.use_case =
        items.map PortfolioItem.use_case := by
  intro items
  induction items with
  | nil => intro count total; simp [applySelectionAux]
  | cons item rest ih =>
    intro count total
    by_cases h1 : item.roi_metrics.basic_roi_percent < cfg.min_roi_threshold
    · simp [applySelectionAux, if_pos h1, ih]
    · by_cases h2 : budgetRejects cfg.budget_constraint (total + projectCost item) = true
      · simp [applySelectionAux, if_neg h1, h2, ih]
      · by_cases h3 : maxRejects cfg.max_projects count = true
        · simp [applySelectionAux, if_neg h1, h2, h3, ih]
        · simp [applySelectionAux, if_neg h1, h2, h3, ih]

/-- Every record embedded in the output of the roadmap loop comes from one
of the input portfolio items. -/
lemma roadmapAux_use_case_mem (startDate : ℤ) :
    ∀ (l : List PortfolioItem) (slots : TimeHorizon → ℕ) (r : RoadmapItem),
      r ∈ roadmapAux startDate slots l → ∃ i ∈ l, r.use_case = i.use_case := by
  intro l
  induction l with
  | nil => intro slots r hr; simp [roadmapAux] at hr
  | cons item rest ih =>
    intro slots r hr
    simp only [roadmapAux, List.mem_cons] at hr
    rcases hr with hr | hr
    · exact ⟨item, by simp, by simp [hr]⟩
    · obtain ⟨i, hi, hieq⟩ := ih _ r hr
      exact ⟨i, by simp [hi], hieq⟩

/-- Claim C9: no pipeline stage alters the input use-case records.  The
metrics stage returns a fresh ROIMetrics referencing the record by id; the
selection pass preserves the embedded records (it only sets the selected
flag and the rationale); every item produced by optimize embeds a record of
the input list unchanged; every roadmap entry embeds a record drawn
unchanged from its input items. -/
theorem pipeline_preserves_use_case_records :
    (∀ (v : ℚ) (uc : AIUseCase), (calculateMetricsCore v uc).use_case_id = uc.id) ∧
    (∀ (cfg : OptimizerConfig) (items : List PortfolioItem),
      (applySelection cfg items).map PortfolioItem.use_case =
        items.map PortfolioItem.use_case) ∧
    (∀ (cfg : OptimizerConfig) (ucs : List AIUseCase) (ms : List ROIMetrics),
      ((optimize cfg ucs ms).map PortfolioItem.use_case).all
        (fun uc => decide (uc ∈ ucs)) = true) ∧
    (∀ (startDate : ℤ) (items : List PortfolioItem) (selOnly : Bool),
      ((generateRoadmap startDate items selOnly).map RoadmapItem.use_case).all
        (fun uc => decide (uc ∈ items.map PortfolioItem.use_case)) = true) := by
  refine ⟨fun v uc => rfl, ?_, ?_, ?_⟩
  · intro cfg items
    exact applySelectionAux_map_use_case cfg items 0 0
  · intro cfg ucs ms
    rw [List.all_eq_true]
    intro x hx
    rw [decide_eq_true_eq]
    rw [optimize, applySelection, applySelectionAux_map_use_case] at hx
    obtain ⟨j, hj, hjx⟩ := List.mem_map.mp hx
    rw [sortByScoreDesc, List.mem_mergeSort] at hj
    obtain ⟨uc, hyuc, hjeq⟩ := List.mem_filterMap.mp hj
    obtain ⟨m, -, hmk⟩ := Option.map_eq_some'.mp hjeq
    have : j.use_case = uc := by rw [← hmk]; rfl
    rwa [← hjx, this]
  · intro startDate items selOnly
    rw [List.all_eq_true]
    intro x hx
    rw [decide_eq_true_eq]
    obtain ⟨r, hr, hrx⟩ := List.mem_map.mp hx
    rw [generateRoadmap] at hr
    obtain ⟨i, hi, hieq⟩ := roadmapAux_use_case_mem startDate _ _ r hr
    rw [List.mem_mergeSort] at hi
    have hmem : i ∈ items := by
      by_cases hso : selOnly
      · simp only [hso, if_true] at hi
        exact (List.mem_filter.mp hi).1
      · simpa [hso] using hi
    rw [← hrx, hieq]
    exact List.mem_map_of_mem PortfolioItem.use_case hmem

/-! ## Claim C10: dependency ordering and cycles -/

/-- The name map built from the two cyclic items. -/
def cycleMap : List (String × RoadmapItem) :=
  nameToItem [depItemA, depItemB]

/-- On the two-item cycle the visited set is never extended (names are added
only after the dependency recursion returns, which it never does), so every
finite recursion depth is exhausted: process of either item from an empty
visited set runs out of fuel. -/
lemma processFuel_cycle_exhausts :
    ∀ (fuel : ℕ) (ord : List RoadmapItem),
      processFuel cycleMap fuel depItemA { processed := [], ordered := ord } = none ∧
      processFuel cycleMap fuel depItemB { processed := [], ordered := ord } = none := by
  intro fuel
  induction fuel with
  | zero => intro ord; exact ⟨by simp [processFuel], by simp [processFuel]⟩
  | succ f ih =>
    intro ord
    have hdepsA : depItemA.use_case.dependencies = ["B"] := rfl
    have hdepsB : depItemB.use_case.dependencies = ["A"] := rfl
    have hnameA : depItemA.use_case.name = "A" := rfl
    have hnameB : depItemB.use_case.name = "B" := rfl
    have hlookB : cycleMap.lookup "B" = some depItemB := by
      simp +decide [cycleMap, nameToItem, depItemA, depItemB, List.lookup]
    have hlookA : cycleMap.lookup "A" = some depItemA := by
      simp +decide [cycleMap, nameToItem, depItemA, depItemB, List.lookup]
    constructor
    · simp [processFuel, processDeps, hdepsA, hnameA, hlookB, (ih ord).2]
    · simp [processFuel, processDeps, hdepsB, hnameB, hlookA, (ih ord).1]

/-- Claim C10: on the two roadmap items A and B whose dependencies name each
other, the dependency-ordering pass fails to terminate: for every recursion
depth the traversal runs out of depth, because a name is added to the
visited set only after its dependencies have been fully processed, which
never happens inside the cycle.  The Python original raises RecursionError
on this input instead of returning an order. -/
theorem dependencies_order_cycle_diverges (fuel : ℕ) :
    getDependenciesOrderFuel fuel [depItemA, depItemB] = none := by
  have hmap : nameToItem [depItemA, depItemB] = cycleMap := rfl
  cases fuel with
  | zero =>
    simp [getDependenciesOrderFuel, processAll, processFuel, hmap]
  | succ f =>
    have := (processFuel_cycle_exhausts (f + 1) []).1
    simp [getDependenciesOrderFuel, processAll, hmap, this]

/-! ## Claim C7: NPV monotonicity -/

/-- Rounding to the nearest integer is monotone. -/
lemma round_mono_of_le {α : Type} [LinearOrderedField α] [FloorRing α]
    {x y : α} (h : x ≤ y) : round x ≤ round y := by
  rw [round_eq, round_eq]
  exact Int.floor_le_floor (by linarith)

/-- Rounding to 2 decimals over the reals is monotone. -/
lemma round2R_mono {x y : ℝ} (h : x ≤ y) : round2R x ≤ round2R y := by
  unfold round2R
  have h2 : round (x * 100) ≤ round (y * 100) := round_mono_of_le (by linarith)
  have h3 : ((round (x * 100) : ℤ) : ℝ) ≤ ((round (y * 100) : ℤ) : ℝ) := by
    exact_mod_cast h2
  linarith

/-- The monthly discount factor 1 + monthly_rate is positive. -/
lemma one_add_monthlyRate_pos : (0 : ℝ) < 1 + monthlyRate := by
  have h : (0 : ℝ) < (1 + 10 / 100 : ℝ) ^ ((1 : ℝ) / 12) :=
    Real.rpow_pos_of_pos (by norm_num) _
  unfold monthlyRate
  linarith

/-- Claim C7: NPV is monotone through the 2-decimal rounding.  For two valid
records that agree on every field except annual_benefit, the record with the
larger annual_benefit has an NPV at least as large; for two valid records
that agree on every field except initial_cost, the record with the larger
initial_cost has an NPV at most as large. -/
theorem npv_monotone_in_benefit_and_cost :
    (∀ u₁ u₂ : AIUseCase, u₁.Valid → u₂.Valid →
      u₂ = { u₁ with annual_benefit := u₂.annual_benefit } →
      u₁.annual_benefit ≤ u₂.annual_benefit → npvR u₁ ≤ npvR u₂) ∧
    (∀ u₁ u₂ : AIUseCase, u₁.Valid → u₂.Valid →
      u₂ = { u₁ with initial_cost := u₂.initial_cost } →
      u₁.initial_cost ≤ u₂.initial_cost → npvR u₂ ≤ npvR u₁) := by
  have hD : (0 : ℝ) < 1 + monthlyRate := one_add_monthlyRate_pos
  constructor
  · intro u₁ u₂ hv₁ hv₂ heq hb
    unfold npvR
    apply round2R_mono
    apply Finset.sum_le_sum
    intro t ht
    have hpow : (0 : ℝ) < (1 + monthlyRate) ^ t := pow_pos hD t
    have hcf : cashFlow u₁ t ≤ cashFlow u₂ t := by
      rw [heq]
      simp [cashFlow, benefitStart]
      split_ifs <;> linarith
    exact div_le_div_of_nonneg_right (by exact_mod_cast hcf) hpow.le
  · intro u₁ u₂ hv₁ hv₂ heq hb
    unfold npvR
    apply round2R_mono
    apply Finset.sum_le_sum
    intro t ht
    have hpow : (0 : ℝ) < (1 + monthlyRate) ^ t := pow_pos hD t
    have hcf : cashFlow u₂ t ≤ cashFlow u₁ t := by
      rw [heq]
      simp [cashFlow, benefitStart]
      split_ifs <;> linarith
    exact div_le_div_of_nonneg_right (by exact_mod_cast hcf) hpow.le

/-- Witness for Claim C7 at concrete records: raising the annual benefit
from 0 to 120000 does not lower NPV, and raising the initial cost from
150000 to 200000 does not raise it. -/
theorem npv_monotone_in_benefit_and_cost_witness :
    npvR npvBaseUC ≤ npvR npvMoreBenefitUC ∧ npvR npvMoreCostUC ≤ npvR npvBaseUC :=
  ⟨npv_monotone_in_benefit_and_cost.1 npvBaseUC npvMoreBenefitUC
      (by norm_num [AIUseCase.Valid, npvBaseUC, specScenarioRecord])
      (by norm_num [AIUseCase.Valid, npvBaseUC, npvMoreBenefitUC, specScenarioRecord])
      rfl
      (by norm_num [npvBaseUC, npvMoreBenefitUC, specScenarioRecord]),
    npv_monotone_in_benefit_and_cost.2 npvBaseUC npvMoreCostUC
      (by norm_num [AIUseCase.Valid, npvBaseUC, specScenarioRecord])
      (by norm_num [AIUseCase.Valid, npvBaseUC, npvMoreCostUC, specScenarioRecord])
      rfl
      (by norm_num [npvBaseUC, npvMoreCostUC, specScenarioRecord])⟩

end ECFOAI
